import Mathlib

/-!
Shallow embedding of `src/generate_app_icons.py` (Gotify app icon generator).

Python floats are modelled as exact rationals (ℚ); Python `int(x)` is
truncation toward zero (`pytrunc`); Python's integer floor division `//`
is ℤ division by a positive divisor (`Int.ediv`, written `/`).
Pixel buffers are modelled as total functions ℤ × ℤ → pixel together with
their declared width and height; the imaging toolkit's paste-with-mask
blending uses the exact integer blend arithmetic of the toolkit's C core
(`MULDIV255`).  The external rasterizer and the Gaussian blur are
collaborators and enter the model as explicit function parameters.
-/

namespace GotifyIcons

/-- Python `int(x)` on a float: truncation toward zero. -/
def pytrunc (q : ℚ) : ℤ := if 0 ≤ q then ⌊q⌋ else -⌊-q⌋

/-- The fixed rounded-corner radius ratio `0.2237` (line 48 of the source). -/
def radiusRatio : ℚ := 2237 / 10000

/-- An RGBA pixel, each channel an integer in `0..255`. -/
structure Pixel where
  r : ℕ
  g : ℕ
  b : ℕ
  a : ℕ
  deriving DecidableEq

/-- An RGBA image: declared dimensions plus a total pixel function. -/
structure Img where
  w : ℤ
  h : ℤ
  px : ℤ → ℤ → Pixel

/-- A single-channel ('L' mode) image, used for masks. -/
structure LImg where
  w : ℤ
  h : ℤ
  px : ℤ → ℤ → ℕ

/-- `Image.new('RGBA', (w, h), c)`: a constant canvas. -/
def Img.new (w h : ℤ) (c : Pixel) : Img := ⟨w, h, fun _ _ => c⟩

/-- The toolkit's `MULDIV255(a, b)` macro: `(a * b + 128)` folded twice by 8,
an exact integer approximation of `a * b / 255`. -/
def muldiv255 (a b : ℕ) : ℕ :=
  let t := a * b + 128
  ((t >>> 8) + t) >>> 8

/-- One channel of the toolkit's masked-paste blend:
`BLEND(mask, dst, src) = MULDIV255(dst, 255 - mask) + MULDIV255(src, mask)`. -/
def blendCh (m d s : ℕ) : ℕ := muldiv255 d (255 - m) + muldiv255 s m

/-- Membership of `(x, y)` in the paste box anchored at `(ox, oy)` of size `w × h`. -/
def inBox (ox oy w h x y : ℤ) : Bool :=
  decide (ox ≤ x ∧ x < ox + w ∧ oy ≤ y ∧ y < oy + h)

/-- `dst.paste(src, (ox, oy), src)`: paste `src` using its own alpha band as the
mask.  Every channel of the destination, alpha included, is blended with the
mask weight. -/
def pasteMask (dst src : Img) (ox oy : ℤ) : Img :=
  { dst with px := fun x y =>
      if inBox ox oy src.w src.h x y then
        let s := src.px (x - ox) (y - oy)
        let d := dst.px x y
        ⟨blendCh s.a d.r s.r, blendCh s.a d.g s.g, blendCh s.a d.b s.b, blendCh s.a d.a s.a⟩
      else dst.px x y }

/-- `dst.paste(src, (ox, oy))` without a mask: plain copy into the box. -/
def pasteCopy (dst src : Img) (ox oy : ℤ) : Img :=
  { dst with px := fun x y =>
      if inBox ox oy src.w src.h x y then src.px (x - ox) (y - oy)
      else dst.px x y }

/-- `img.putalpha(m)`: replace the alpha band with the mask's channel. -/
def putalpha (img : Img) (m : LImg) : Img :=
  { img with px := fun x y =>
      let p := img.px x y
      ⟨p.r, p.g, p.b, m.px x y⟩ }

/-- Whether `(x, y)` lies inside the filled rounded rectangle with bounding box
`[(l, t), (r, b)]` and corner radius `radius` (idealized geometric model of the
toolkit's `rounded_rectangle` fill). -/
def inRoundedRect (l t r b radius x y : ℤ) : Bool :=
  decide (l ≤ x ∧ x ≤ r ∧ t ≤ y ∧ y ≤ b) &&
    (decide ((l + radius ≤ x ∧ x ≤ r - radius) ∨ (t + radius ≤ y ∧ y ≤ b - radius)) ||
      decide ((x - (l + radius))^2 + (y - (t + radius))^2 ≤ radius^2) ||
      decide ((x - (r - radius))^2 + (y - (t + radius))^2 ≤ radius^2) ||
      decide ((x - (l + radius))^2 + (y - (b - radius))^2 ≤ radius^2) ||
      decide ((x - (r - radius))^2 + (y - (b - radius))^2 ≤ radius^2))

/-- The corner radius computed by `create_rounded_rectangle_mask`
(line 57: `radius = int(size * radius_ratio)` with the default ratio `0.2237`). -/
def crrm_radius (size : ℤ) : ℤ := pytrunc ((size : ℚ) * radiusRatio)

/-- `create_rounded_rectangle_mask(size)` (lines 48-59): a single-channel mask,
255 inside the full-canvas rounded rectangle, 0 outside. -/
def create_rounded_rectangle_mask (size : ℤ) : LImg :=
  ⟨size, size, fun x y =>
    if inRoundedRect 0 0 size size (crrm_radius size) x y then 255 else 0⟩

/-- The styling parameters of `generate_icon` (lines 82-85).  In the Python
signature their defaults are `padding_ratio=0.15`, `scale_ratio=1.0`,
`add_rounded_corners=True`, `corner_padding_ratio=0.0`, `add_shadow=False`,
`shadow_offset_x=0.0`, `shadow_offset_y=0.02`, `shadow_blur=0.05`,
`shadow_opacity=0.9`; `main` always passes every one of them explicitly. -/
structure Style where
  bgColor : ℕ × ℕ × ℕ
  paddingRatio : ℚ
  scaleRatio : ℚ
  addRoundedCorners : Bool
  cornerPaddingRatio : ℚ
  addShadow : Bool
  shadowOffsetX : ℚ
  shadowOffsetY : ℚ
  shadowBlur : ℚ
  shadowOpacity : ℚ

/-- Line 105-112: `rounded_icon_size`. -/
def roundedIconSize (size : ℤ) (st : Style) : ℤ :=
  if st.addRoundedCorners = true ∧ 0 < st.cornerPaddingRatio then
    pytrunc ((size : ℚ) * (1 - 2 * st.cornerPaddingRatio))
  else size

/-- Line 105-112: `rounded_icon_offset`. -/
def roundedIconOffset (size : ℤ) (st : Style) : ℤ :=
  if st.addRoundedCorners = true ∧ 0 < st.cornerPaddingRatio then
    pytrunc ((size : ℚ) * st.cornerPaddingRatio)
  else 0

/-- Line 115: `content_size = int(rounded_icon_size * (1 - 2 * padding_ratio))`. -/
def contentSize (size : ℤ) (st : Style) : ℤ :=
  pytrunc ((roundedIconSize size st : ℚ) * (1 - 2 * st.paddingRatio))

/-- Line 118: `scaled_content_size = int(content_size * scale_ratio)`;
this is the pixel dimension the rasterizer is invoked at (line 122). -/
def scaledContentSize (size : ℤ) (st : Style) : ℤ :=
  pytrunc ((contentSize size st : ℚ) * st.scaleRatio)

/-- Line 132: `offset = (rounded_icon_size - scaled_content_size) // 2`. -/
def contentOffset (size : ℤ) (st : Style) : ℤ :=
  (roundedIconSize size st - scaledContentSize size st) / 2

example : pytrunc (7/2 : ℚ) = 3 := by
  rw [pytrunc, if_pos (by norm_num)]; norm_num

example : pytrunc (-7/5 : ℚ) = -1 := by
  rw [pytrunc, if_neg (by norm_num)]; norm_num

/-- Line 157: the shadow's corner radius, `int(rounded_icon_size * 0.2237)`. -/
def shadowRadius (roundedSize : ℤ) : ℤ := pytrunc ((roundedSize : ℚ) * (2237 / 10000))

/-- Line 171: the shadow rectangle's fill color,
`(0, 0, 0, int(255 * shadow_opacity))`. -/
def shadowFill (opacity : ℚ) : Pixel := ⟨0, 0, 0, (pytrunc (255 * opacity)).toNat⟩

/-- `ImageDraw.rounded_rectangle` on an RGBA image: replace every pixel inside
the rounded rectangle with the fill color (drawing does not alpha-blend). -/
def drawRoundedRect (img : Img) (l t r b radius : ℤ) (fill : Pixel) : Img :=
  { img with px := fun x y =>
      if inRoundedRect l t r b radius x y then fill else img.px x y }

/-- Lines 149-177: the shadow layer.  A transparent `size × size` canvas with a
filled rounded rectangle at the icon's position shifted by the shadow offsets,
then Gaussian-blurred (the blur itself is the toolkit collaborator `blur`,
skipped when the integer blur radius is 0). -/
def shadowLayer (blur : ℤ → Img → Img) (size : ℤ) (st : Style) : Img :=
  let roundedSize := roundedIconSize size st
  let roundedOffset := roundedIconOffset size st
  let radius := shadowRadius roundedSize
  let sx := pytrunc ((size : ℚ) * st.shadowOffsetX)
  let sy := pytrunc ((size : ℚ) * st.shadowOffsetY)
  let shadowLeft := roundedOffset + sx
  let shadowTop := roundedOffset + sy
  let drawn := drawRoundedRect (Img.new size size ⟨0, 0, 0, 0⟩)
    shadowLeft shadowTop (shadowLeft + roundedSize) (shadowTop + roundedSize)
    radius (shadowFill st.shadowOpacity)
  let blurRadius := pytrunc ((size : ℚ) * st.shadowBlur)
  if 0 < blurRadius then blur blurRadius drawn else drawn

/-- Lines 125-186 of `generate_icon`: the pure compositing pipeline, from the
loaded rasterized content image to the image that gets saved.  `blur` is the
toolkit's Gaussian blur collaborator. -/
def composeIcon (blur : ℤ → Img → Img) (content : Img) (size : ℤ) (st : Style) : Img :=
  let rSize := roundedIconSize size st
  let rOffset := roundedIconOffset size st
  let offset := contentOffset size st
  let icon0 := Img.new rSize rSize ⟨st.bgColor.1, st.bgColor.2.1, st.bgColor.2.2, 255⟩
  let icon := pasteMask icon0 content offset offset
  if st.addRoundedCorners = true then
    let mask := create_rounded_rectangle_mask rSize
    let roundedOutput := putalpha (pasteCopy (Img.new rSize rSize ⟨0, 0, 0, 0⟩) icon 0 0) mask
    if 0 < st.cornerPaddingRatio ∨ st.addShadow = true then
      let final0 := Img.new size size ⟨0, 0, 0, 0⟩
      let final1 :=
        if st.addShadow = true then
          pasteMask final0 (shadowLayer blur size st) 0 0
        else final0
      pasteMask final1 roundedOutput rOffset rOffset
    else roundedOutput
  else icon

/-- Lines 138 and 145: whether the execution reaches the conditional
shadow-and-re-centering composite, i.e. allocates the final transparent
`size × size` canvas instead of keeping the (rounded) background canvas.
Transcribes the nesting of the source: the inner condition at line 145 is
only evaluated inside the `add_rounded_corners` branch opened at line 138. -/
def shadowCompositeTaken (st : Style) : Bool :=
  if st.addRoundedCorners = true then
    if 0 < st.cornerPaddingRatio ∨ st.addShadow = true then true else false
  else false

/-- Outcome of one `rsvg-convert` invocation (`convert_svg_to_png`, lines
62-79), as seen by the caller: success (the transient PNG was written with the
rendered content), a process error after which the transient file was written
anyway, a process error with no file produced, or the tool being absent. -/
inductive RastResult where
  | success (img : Img)
  | procErrorWrote (img : Img)
  | procErrorNoFile
  | toolNotFound

/-- The file-system state the script mutates: which per-size transient files
`/tmp/temp_icon_{size}.png` exist, the contents of the output files, and
whether the output directory has been created. -/
structure FS where
  temp : ℤ → Bool
  out : String → Option Img
  dirCreated : Bool

/-- A file system with no transient files and an empty output directory. -/
def emptyFS : FS := ⟨fun _ => false, fun _ => none, false⟩

/-- `generate_icon` (lines 82-194) as a state transformer: invoke the
rasterizer at `scaled_content_size`; on failure return `False` (leaving the
transient file behind if the failed invocation still wrote it); on success
load the content, run the compositing pipeline, save the result to
`outputPath`, remove the transient file, and return `True`. -/
def generate_icon (rast : ℤ → RastResult) (blur : ℤ → Img → Img)
    (outputPath : String) (size : ℤ) (st : Style) (s : FS) : Bool × FS :=
  match rast (scaledContentSize size st) with
  | .toolNotFound => (false, s)
  | .procErrorNoFile => (false, s)
  | .procErrorWrote _ =>
      (false, { s with temp := fun k => if k = size then true else s.temp k })
  | .success content =>
      let icon := composeIcon blur content size st
      (true,
        { s with
          temp := fun k => if k = size then false else s.temp k,
          out := fun n => if n = outputPath then some icon else s.out n })

/-- The `ICON_SIZES` table (lines 15-39): the 19 output sizes and file names. -/
def ICON_SIZES : List (ℤ × String) :=
  [(40, "icon_40.png"), (60, "icon_60.png"), (58, "icon_58.png"),
   (87, "icon_87.png"), (80, "icon_80.png"), (120, "icon_120.png"),
   (180, "icon_180.png"), (20, "icon_20.png"), (29, "icon_29.png"),
   (76, "icon_76.png"), (152, "icon_152.png"), (167, "icon_167.png"),
   (1024, "icon_1024.png"), (16, "icon_16.png"), (32, "icon_32.png"),
   (64, "icon_64.png"), (128, "icon_128.png"), (256, "icon_256.png"),
   (512, "icon_512.png")]

/-- The numeric value of one hexadecimal digit (0 for characters Python's
`int(_, 16)` would reject; `hex_to_rgb` is only ever applied to valid input). -/
def hexDigitVal (c : Char) : ℕ :=
  if '0' ≤ c ∧ c ≤ '9' then c.toNat - '0'.toNat
  else if 'a' ≤ c ∧ c ≤ 'f' then c.toNat - 'a'.toNat + 10
  else if 'A' ≤ c ∧ c ≤ 'F' then c.toNat - 'A'.toNat + 10
  else 0

/-- `hex_to_rgb` (lines 42-45): strip leading `#`, then parse three
two-digit hexadecimal components. -/
def hex_to_rgb (s : String) : ℕ × ℕ × ℕ :=
  match s.toList.dropWhile (fun c => c = '#') with
  | r1 :: r2 :: g1 :: g2 :: b1 :: b2 :: _ =>
      (16 * hexDigitVal r1 + hexDigitVal r2,
       16 * hexDigitVal g1 + hexDigitVal g2,
       16 * hexDigitVal b1 + hexDigitVal b2)
  | _ => (0, 0, 0)

/-- The parsed command-line options (lines 198-225). -/
structure Args where
  svgFile : String
  outputDir : String
  color : String
  padding : ℚ
  scale : ℚ
  cornerPadding : ℚ
  noRoundedCorners : Bool
  shadow : Bool
  shadowOffsetX : ℚ
  shadowOffsetY : ℚ
  shadowBlur : ℚ
  shadowOpacity : ℚ

/-- The argparse defaults (every option left unspecified on the command
line); the positional `svg_file` has no default and is taken as a parameter. -/
def Args.defaults (svg : String) : Args :=
  ⟨svg, "generated-icons", "#71CAEE", 3/20, 1, 0, false, false, 0, 1/50, 1/20, 3/10⟩

/-- The `Style` that `main` passes to `generate_icon` (lines 263-277):
every styling argument is forwarded explicitly from the parsed options. -/
def styleOfArgs (a : Args) : Style :=
  ⟨hex_to_rgb a.color, a.padding, a.scale, !a.noRoundedCorners, a.cornerPadding,
   a.shadow, a.shadowOffsetX, a.shadowOffsetY, a.shadowBlur, a.shadowOpacity⟩

/-- The environment an execution runs against: whether the SVG source file
exists, and the (deterministic) behavior of one rasterizer invocation at a
requested pixel size. -/
structure Env where
  svgExists : Bool
  rast : ℤ → RastResult

/-- The observable outcome of `main`: the process exit code, the final file
system, the success tally, and how many sizes were attempted. -/
structure MainResult where
  exitCode : ℤ
  fs : FS
  successCount : ℕ
  attempted : ℕ

/-- The generation loop of `main` (lines 258-281): fold `generate_icon` over
the size table, counting successes and attempts. -/
def runSizes (rast : ℤ → RastResult) (blur : ℤ → Img → Img) (dir : String)
    (st : Style) : List (ℤ × String) → FS → ℕ → ℕ → FS × ℕ × ℕ
  | [], s, succ, att => (s, succ, att)
  | (size, name) :: l, s, succ, att =>
      let step := generate_icon rast blur (dir ++ "/" ++ name) size st s
      runSizes rast blur dir st l step.2 (if step.1 then succ + 1 else succ) (att + 1)

/-- `main` (lines 197-291): abort with exit code 1 if the SVG source does not
exist (before creating the output directory or touching any file); otherwise
create the output directory, build the style from the parsed options, run the
generation loop over all 19 sizes, and exit 0. -/
def mainRun (a : Args) (env : Env) (blur : ℤ → Img → Img) (s : FS) : MainResult :=
  if env.svgExists = true then
    let s1 : FS := { s with dirCreated := true }
    let res := runSizes env.rast blur a.outputDir (styleOfArgs a) ICON_SIZES s1 0 0
    ⟨0, res.1, res.2.1, res.2.2⟩
  else
    ⟨1, s, 0, 0⟩

/-- The map of output files a run of the loop writes, independent of the
starting file system: for each name, the content written by the last
successful generation targeting it (later sizes overwrite earlier ones). -/
def writesOf (rast : ℤ → RastResult) (blur : ℤ → Img → Img) (dir : String)
    (st : Style) : List (ℤ × String) → String → Option Img
  | [], _ => none
  | (size, name) :: l, n =>
      match writesOf rast blur dir st l n with
      | some i => some i
      | none =>
          match rast (scaledContentSize size st) with
          | .success c =>
              if n = dir ++ "/" ++ name then some (composeIcon blur c size st) else none
          | _ => none

/-- How many of the listed sizes the rasterizer succeeds on (the success
tally is a function of the environment alone, not of the file system). -/
def countSucc (rast : ℤ → RastResult) (st : Style) : List (ℤ × String) → ℕ
  | [] => 0
  | (size, _) :: l =>
      (match rast (scaledContentSize size st) with
       | .success _ => 1
       | _ => 0) + countSucc rast st l

/-! ## Shared helper definitions for concrete evaluations -/

/-- A trivial blur collaborator (the identity), usable wherever the claims do
not constrain the blur's pixel output. -/
def blur0 : ℤ → Img → Img := fun _ i => i

/-- A concrete 1×1 fully opaque content image. -/
def content0 : Img := Img.new 1 1 ⟨0, 0, 0, 255⟩

/-- A rasterizer that always succeeds, producing `content0`. -/
def rast0 : ℤ → RastResult := fun _ => .success content0

/-- The style produced by a command line passing only the SVG path. -/
def defaultStyle : Style := styleOfArgs (Args.defaults "icon.svg")

/-- The default style with corner padding 0.6 (an in-range but degenerate
value: `1 - 2*0.6 < 0`). -/
def cpStyle : Style := { defaultStyle with cornerPaddingRatio := 3/5 }

/-- The default style with rounded corners disabled and shadow enabled. -/
def flatShadowStyle : Style :=
  { defaultStyle with addRoundedCorners := false, addShadow := true }

/-! ## Helper lemmas -/

theorem pytrunc_eq_floor {q : ℚ} (h : 0 ≤ q) : pytrunc q = ⌊q⌋ := if_pos h

theorem roundedIconSize_nonneg (size : ℤ) (st : Style) (hS : 0 ≤ size)
    (hcp1 : st.cornerPaddingRatio ≤ 1/2) : 0 ≤ roundedIconSize size st := by
  rw [roundedIconSize]
  split
  · rw [pytrunc_eq_floor (mul_nonneg (by exact_mod_cast hS) (by linarith))]
    exact Int.floor_nonneg.2 (mul_nonneg (by exact_mod_cast hS) (by linarith))
  · exact hS

theorem composeIcon_dims (blur : ℤ → Img → Img) (content : Img) (size : ℤ)
    (st : Style) :
    (composeIcon blur content size st).w = size ∧
      (composeIcon blur content size st).h = size := by
  simp only [composeIcon]
  by_cases h1 : st.addRoundedCorners = true
  · rw [if_pos h1]
    by_cases h2 : 0 < st.cornerPaddingRatio ∨ st.addShadow = true
    · rw [if_pos h2]
      by_cases h3 : st.addShadow = true
      · rw [if_pos h3]; exact ⟨rfl, rfl⟩
      · rw [if_neg h3]; exact ⟨rfl, rfl⟩
    · rw [if_neg h2]
      have hcp : ¬ 0 < st.cornerPaddingRatio := fun hc => h2 (Or.inl hc)
      constructor
      · show roundedIconSize size st = size
        rw [roundedIconSize, if_neg (fun hand => hcp hand.2)]
      · show roundedIconSize size st = size
        rw [roundedIconSize, if_neg (fun hand => hcp hand.2)]
  · rw [if_neg h1]
    constructor
    · show roundedIconSize size st = size
      rw [roundedIconSize, if_neg (fun hand => h1 hand.1)]
    · show roundedIconSize size st = size
      rw [roundedIconSize, if_neg (fun hand => h1 hand.1)]

/-! ## Claims -/

/-- C1: for every `ICON_SIZES` entry with pixel size `S` and every style
(rounded corners on or off, corner padding zero or positive, shadow on or
off), the image `generate_icon` saves has dimensions exactly `S × S`,
regardless of the intermediate rounded/content canvas sizes. -/
theorem c1_output_dims (p : ℤ × String) (hp : p ∈ ICON_SIZES)
    (rast : ℤ → RastResult) (blur : ℤ → Img → Img) (st : Style)
    (path : String) (img : Img)
    (h : ((generate_icon rast blur path p.1 st emptyFS).2).out path = some img) :
    img.w = p.1 ∧ img.h = p.1 := by
  cases hr : rast (scaledContentSize p.1 st) with
  | success c =>
      rw [generate_icon, hr] at h
      simp only [if_pos rfl] at h
      cases h
      exact composeIcon_dims blur c p.1 st
  | procErrorWrote c => rw [generate_icon, hr] at h; simp [emptyFS] at h
  | procErrorNoFile => rw [generate_icon, hr] at h; simp [emptyFS] at h
  | toolNotFound => rw [generate_icon, hr] at h; simp [emptyFS] at h

/-- Witness for C1 at the table entry `(40, "icon_40.png")`. -/
theorem c1_output_dims_witness :
    ((40 : ℤ), "icon_40.png") ∈ ICON_SIZES ∧
      (composeIcon blur0 content0 40 defaultStyle).w = 40 ∧
      (composeIcon blur0 content0 40 defaultStyle).h = 40 := by
  refine ⟨by simp [ICON_SIZES], ?_⟩
  refine c1_output_dims (40, "icon_40.png") (by simp [ICON_SIZES]) rast0 blur0
    defaultStyle "o" (composeIcon blur0 content0 40 defaultStyle) ?_
  simp [generate_icon, rast0]

/-- C3 counterexample: with rounded corners disabled and shadow enabled the
claimed condition (`cornerPadding > 0` or shadow) holds, yet the code never
reaches the shadow-and-re-centering composite, which lives inside the
rounded-corners branch. -/
theorem c3_composite_counterexample :
    ¬ (shadowCompositeTaken flatShadowStyle = true ↔
        (0 < flatShadowStyle.cornerPaddingRatio ∨ flatShadowStyle.addShadow = true)) := by
  intro h
  have htaken : shadowCompositeTaken flatShadowStyle = true := h.2 (Or.inr rfl)
  simp [shadowCompositeTaken, flatShadowStyle, defaultStyle, styleOfArgs,
    Args.defaults] at htaken

/-- C3 (amended): the shadow-and-re-centering composite is performed exactly
when rounded corners are enabled AND (corner padding is positive or shadow is
enabled); with rounded corners disabled it is never performed, even when
shadow is enabled. -/
theorem c3_composite_condition (st : Style) :
    shadowCompositeTaken st = true ↔
      (st.addRoundedCorners = true ∧
        (0 < st.cornerPaddingRatio ∨ st.addShadow = true)) := by
  by_cases h1 : st.addRoundedCorners = true <;>
    by_cases h2 : 0 < st.cornerPaddingRatio ∨ st.addShadow = true <;>
      simp [shadowCompositeTaken, h1, h2]

theorem roundedIconSize_512_default : roundedIconSize 512 defaultStyle = 512 := by
  rw [roundedIconSize, if_neg]
  rintro ⟨-, hlt⟩
  rw [show defaultStyle.cornerPaddingRatio = 0 from rfl] at hlt
  exact lt_irrefl 0 hlt

theorem scaledContentSize_512_default : scaledContentSize 512 defaultStyle = 358 := by
  have hin : contentSize 512 defaultStyle = 358 := by
    rw [contentSize, roundedIconSize_512_default,
      show defaultStyle.paddingRatio = 3/20 from rfl, pytrunc, if_pos (by norm_num)]
    norm_num
  rw [scaledContentSize, hin, show defaultStyle.scaleRatio = 1 from rfl,
    pytrunc, if_pos (by norm_num)]
  norm_num

theorem contentOffset_512_default : contentOffset 512 defaultStyle = 77 := by
  rw [contentOffset, roundedIconSize_512_default, scaledContentSize_512_default]
  decide

/-- C2 counterexample: at size 7 with rounded corners on and corner padding
0.6 (inside the claimed range [0, 1]) the claimed floor formula gives
`⌊7 * (1 - 1.2)⌋ = -2`, but the code's `int()` truncates toward zero:
`int(7 * (-0.2)) = -1`. -/
theorem c2_geometry_counterexample :
    roundedIconSize 7 cpStyle ≠ ⌊(7 : ℚ) * (1 - 2 * cpStyle.cornerPaddingRatio)⌋ := by
  have hcp : cpStyle.cornerPaddingRatio = 3/5 := rfl
  have h1 : roundedIconSize 7 cpStyle = -1 := by
    rw [roundedIconSize, if_pos ⟨rfl, by rw [hcp]; norm_num⟩, hcp, pytrunc,
      if_neg (by norm_num)]
    norm_num
  have h2 : ⌊(7 : ℚ) * (1 - 2 * cpStyle.cornerPaddingRatio)⌋ = -2 := by
    rw [hcp]; norm_num
  rw [h1, h2]; decide

/-- C2 (amended): Python's `int()` truncates toward zero, which agrees with
flooring on nonnegative values, so with the ratio parameters in their
expected ranges (corner padding and padding in [0, 1/2], scale nonnegative)
the claimed formulas hold: `roundedSize` and `roundedOffset` are the floors
when rounded corners are on with positive corner padding and `(S, 0)`
otherwise, the rasterizer request is `⌊⌊roundedSize*(1-2p)⌋ * c⌋`, and the
content offset is `⌊(roundedSize - scaledContentSize)/2⌋`; in particular for
S = 512 with the default style (p = 0.15, c = 1.0, rounded corners on,
corner padding 0) the request is 358 pixels centered at offset 77.  Outside
those ranges (corner padding in (1/2, 1]) truncation and floor differ. -/
theorem c2_geometry_floor (S : ℤ) (st : Style) (hS : 0 < S)
    (hcp0 : 0 ≤ st.cornerPaddingRatio) (hcp1 : st.cornerPaddingRatio ≤ 1/2)
    (hp0 : 0 ≤ st.paddingRatio) (hp1 : st.paddingRatio ≤ 1/2)
    (hc0 : 0 ≤ st.scaleRatio) :
    (roundedIconSize S st =
      if st.addRoundedCorners = true ∧ 0 < st.cornerPaddingRatio then
        ⌊(S : ℚ) * (1 - 2 * st.cornerPaddingRatio)⌋ else S) ∧
    (roundedIconOffset S st =
      if st.addRoundedCorners = true ∧ 0 < st.cornerPaddingRatio then
        ⌊(S : ℚ) * st.cornerPaddingRatio⌋ else 0) ∧
    scaledContentSize S st =
      ⌊(⌊(roundedIconSize S st : ℚ) * (1 - 2 * st.paddingRatio)⌋ : ℚ) * st.scaleRatio⌋ ∧
    contentOffset S st =
      ⌊((roundedIconSize S st - scaledContentSize S st : ℤ) : ℚ) / 2⌋ ∧
    scaledContentSize 512 defaultStyle = 358 ∧
    contentOffset 512 defaultStyle = 77 := by
  have hSq : (0 : ℚ) ≤ (S : ℚ) := by exact_mod_cast hS.le
  have hrn : 0 ≤ roundedIconSize S st := roundedIconSize_nonneg S st hS.le hcp1
  have hrq : (0 : ℚ) ≤ (roundedIconSize S st : ℚ) := by exact_mod_cast hrn
  have hpad : (0 : ℚ) ≤ (roundedIconSize S st : ℚ) * (1 - 2 * st.paddingRatio) :=
    mul_nonneg hrq (by linarith)
  have hcseq : contentSize S st = ⌊(roundedIconSize S st : ℚ) * (1 - 2 * st.paddingRatio)⌋ := by
    rw [contentSize, pytrunc_eq_floor hpad]
  have hcsn : (0 : ℚ) ≤ (contentSize S st : ℚ) := by
    rw [hcseq]; exact_mod_cast Int.floor_nonneg.2 hpad
  refine ⟨?_, ?_, ?_, ?_, ?_, ?_⟩
  · rw [roundedIconSize]
    by_cases hb : st.addRoundedCorners = true ∧ 0 < st.cornerPaddingRatio
    · rw [if_pos hb, if_pos hb, pytrunc_eq_floor (mul_nonneg hSq (by linarith))]
    · rw [if_neg hb, if_neg hb]
  · rw [roundedIconOffset]
    by_cases hb : st.addRoundedCorners = true ∧ 0 < st.cornerPaddingRatio
    · rw [if_pos hb, if_pos hb, pytrunc_eq_floor (mul_nonneg hSq hcp0)]
    · rw [if_neg hb, if_neg hb]
  · rw [scaledContentSize, pytrunc_eq_floor (mul_nonneg hcsn hc0), hcseq]
  · have h4 := Rat.floor_intCast_div_natCast
      (roundedIconSize S st - scaledContentSize S st) 2
    rw [contentOffset,
      show ((roundedIconSize S st - scaledContentSize S st : ℤ) : ℚ) / 2 =
        ((roundedIconSize S st - scaledContentSize S st : ℤ) : ℚ) / ((2 : ℕ) : ℚ) by
          norm_num,
      h4]
    norm_num
  · exact scaledContentSize_512_default
  · exact contentOffset_512_default

/-- Witness for C2 at the claim's scenario: size 512 with the default style. -/
theorem c2_geometry_floor_witness :
    (0 : ℤ) < 512 ∧ scaledContentSize 512 defaultStyle = 358 ∧
      contentOffset 512 defaultStyle = 77 :=
  ⟨by norm_num,
    (c2_geometry_floor 512 defaultStyle (by norm_num)
      (by norm_num [defaultStyle, styleOfArgs, Args.defaults])
      (by norm_num [defaultStyle, styleOfArgs, Args.defaults])
      (by norm_num [defaultStyle, styleOfArgs, Args.defaults])
      (by norm_num [defaultStyle, styleOfArgs, Args.defaults])
      (by norm_num [defaultStyle, styleOfArgs, Args.defaults])).2.2.2.2⟩

/-- C5 counterexample: for rounded size 512 the code computes the corner
radius by truncation, `int(512 * 0.2237) = 114`, not by rounding
(`round(114.5344) = 115`) as claimed. -/
theorem c5_radius_counterexample :
    crrm_radius 512 = 114 ∧ crrm_radius 512 ≠ round ((512 : ℚ) * radiusRatio) := by
  have h1 : crrm_radius 512 = 114 := by
    rw [crrm_radius, radiusRatio, pytrunc, if_pos (by norm_num)]
    norm_num
  have h2 : round ((512 : ℚ) * radiusRatio) = 115 := by
    rw [radiusRatio, round_eq]
    norm_num
  exact ⟨h1, by rw [h1, h2]; decide⟩

/-- C5 (amended): the rounded-corner mask of step 4 and the shadow rounded
rectangle of step 5 both use corner radius `int(roundedSize * 0.2237)` —
the same formula, with truncation rather than rounding; for rounded size 512
the radius is 114. -/
theorem c5_radius_truncation :
    (∀ s : ℤ, crrm_radius s = shadowRadius s) ∧ crrm_radius 512 = 114 := by
  constructor
  · intro s; rfl
  · rw [crrm_radius, radiusRatio, pytrunc, if_pos (by norm_num)]
    norm_num

/-- An environment with the source file present but rsvg-convert absent. -/
def envNoTool : Env := ⟨true, fun _ => .toolNotFound⟩

/-- An environment with the source file present and a working rasterizer. -/
def envRastOk : Env := ⟨true, rast0⟩

/-- An environment whose SVG source file does not exist. -/
def envNoSvg : Env := ⟨false, rast0⟩

/-- A rasterizer whose process always errors but still writes the file. -/
def rastBroken : ℤ → RastResult := fun _ => .procErrorWrote content0

theorem generate_icon_ok (rast : ℤ → RastResult) (blur : ℤ → Img → Img)
    (path : String) (size : ℤ) (st : Style) (s : FS) :
    (generate_icon rast blur path size st s).1 =
      match rast (scaledContentSize size st) with
      | .success _ => true
      | _ => false := by
  cases hr : rast (scaledContentSize size st) <;> simp [generate_icon, hr]

theorem runSizes_tally (rast : ℤ → RastResult) (blur : ℤ → Img → Img)
    (dir : String) (st : Style) (l : List (ℤ × String)) :
    ∀ (s : FS) (succ att : ℕ),
      (runSizes rast blur dir st l s succ att).2.1 = succ + countSucc rast st l ∧
      (runSizes rast blur dir st l s succ att).2.2 = att + l.length := by
  induction l with
  | nil => intro s succ att; simp [runSizes, countSucc]
  | cons p l ih =>
      obtain ⟨size, name⟩ := p
      intro s succ att
      simp only [runSizes, countSucc, List.length_cons]
      obtain ⟨ih1, ih2⟩ := ih (generate_icon rast blur (dir ++ "/" ++ name) size st s).2
        (if (generate_icon rast blur (dir ++ "/" ++ name) size st s).1 then succ + 1
          else succ)
        (att + 1)
      constructor
      · rw [ih1, generate_icon_ok]
        cases rast (scaledContentSize size st) <;> simp <;> omega
      · rw [ih2]; omega

/-- C4 counterexample: with the source file present but the rasterizer tool
missing, the program does NOT exit nonzero as claimed — every size fails
individually and the run still exits 0 after attempting all 19 sizes. -/
theorem c4_exit_counterexample :
    (mainRun (Args.defaults "icon.svg") envNoTool blur0 emptyFS).exitCode = 0 ∧
      (mainRun (Args.defaults "icon.svg") envNoTool blur0 emptyFS).successCount = 0 ∧
      (mainRun (Args.defaults "icon.svg") envNoTool blur0 emptyFS).attempted = 19 :=
  ⟨rfl, rfl, rfl⟩

/-- C4 (amended): a missing rasterizer tool does not abort the run — it is
reported per size and counted as that size's failure; whenever the source
file exists the program exits 0 after attempting all 19 sizes, regardless of
individual failures (tool missing included).  Only a missing source file
produces a nonzero exit. -/
theorem c4_exit_behavior (a : Args) (env : Env) (blur : ℤ → Img → Img) (s : FS)
    (h : env.svgExists = true) :
    (mainRun a env blur s).exitCode = 0 ∧ (mainRun a env blur s).attempted = 19 := by
  simp only [mainRun]
  rw [if_pos h]
  refine ⟨rfl, ?_⟩
  show (runSizes env.rast blur a.outputDir (styleOfArgs a) ICON_SIZES
    { s with dirCreated := true } 0 0).2.2 = 19
  rw [(runSizes_tally env.rast blur a.outputDir (styleOfArgs a) ICON_SIZES
    { s with dirCreated := true } 0 0).2]
  rfl

/-- Witness for C4's amended statement: an environment with a working
rasterizer and the source present. -/
theorem c4_exit_behavior_witness :
    envRastOk.svgExists = true ∧
      (mainRun (Args.defaults "icon.svg") envRastOk blur0 emptyFS).exitCode = 0 ∧
      (mainRun (Args.defaults "icon.svg") envRastOk blur0 emptyFS).attempted = 19 :=
  ⟨rfl, c4_exit_behavior (Args.defaults "icon.svg") envRastOk blur0 emptyFS rfl⟩

/-- C6 counterexample: a rasterizer process error that still wrote the
transient file makes `generate_icon` return False immediately (line 123)
without removing the file — the removal at line 192 is only reached on the
fully successful path, there is no try/finally scoping. -/
theorem c6_temp_counterexample :
    (generate_icon rastBroken blur0 "out.png" 512 defaultStyle emptyFS).1 = false ∧
      ((generate_icon rastBroken blur0 "out.png" 512 defaultStyle emptyFS).2).temp 512
        = true :=
  ⟨rfl, rfl⟩

/-- C6 (amended): the transient raster file is removed after use on the
successful path (rasterization, compositing and save all complete); on a
rasterizer failure that still produced the file, the file is left behind. -/
theorem c6_temp_removed_on_success (rast : ℤ → RastResult) (blur : ℤ → Img → Img)
    (path : String) (size : ℤ) (st : Style) (s : FS) (img : Img)
    (h : rast (scaledContentSize size st) = .success img) :
    ((generate_icon rast blur path size st s).2).temp size = false := by
  rw [generate_icon, h]
  simp

/-- Witness for C6's amended statement with a succeeding rasterizer. -/
theorem c6_temp_removed_on_success_witness :
    rast0 (scaledContentSize 512 defaultStyle) = .success content0 ∧
      ((generate_icon rast0 blur0 "out.png" 512 defaultStyle emptyFS).2).temp 512
        = false :=
  ⟨rfl, c6_temp_removed_on_success rast0 blur0 "out.png" 512 defaultStyle emptyFS
    content0 rfl⟩

/-- C7: if the SVG source file does not exist, the run aborts before any
generation begins: exit code 1 (line 231) is reached before the output
directory is created (line 235), so the file system is left exactly as it
was — zero output files written, no transient files, no directory. -/
theorem c7_missing_source (a : Args) (env : Env) (blur : ℤ → Img → Img) (s : FS)
    (h : env.svgExists = false) :
    (mainRun a env blur s).exitCode = 1 ∧ (mainRun a env blur s).fs = s := by
  rw [mainRun, if_neg (by rw [h]; exact Bool.false_ne_true)]
  exact ⟨rfl, rfl⟩

/-- Witness for C7 with a concrete absent-source environment. -/
theorem c7_missing_source_witness :
    envNoSvg.svgExists = false ∧
      (mainRun (Args.defaults "icon.svg") envNoSvg blur0 emptyFS).exitCode = 1 ∧
      (mainRun (Args.defaults "icon.svg") envNoSvg blur0 emptyFS).fs = emptyFS :=
  ⟨rfl, c7_missing_source (Args.defaults "icon.svg") envNoSvg blur0 emptyFS rfl⟩

/-- C8: when the shadow-opacity option is not specified on the command line,
its argparse default 0.3 is forwarded by `main` to `generate_icon` (the
function-signature default 0.9 is never used, since `main` passes every
styling argument explicitly), so every path that reaches the shadow-drawing
step fills the shadow rectangle with `int(255 * 0.3) = 76` alpha. -/
theorem c8_default_shadow_opacity (a : Args)
    (h : a.shadowOpacity = (Args.defaults a.svgFile).shadowOpacity) :
    (styleOfArgs a).shadowOpacity = 3/10 ∧
      shadowFill ((styleOfArgs a).shadowOpacity) = ⟨0, 0, 0, 76⟩ := by
  have h1 : (styleOfArgs a).shadowOpacity = 3/10 := by
    rw [show (styleOfArgs a).shadowOpacity = a.shadowOpacity from rfl, h]
    rfl
  refine ⟨h1, ?_⟩
  rw [h1, shadowFill, pytrunc, if_pos (by norm_num)]
  have h2 : ⌊(255 : ℚ) * (3/10)⌋ = 76 := by norm_num
  rw [h2]
  rfl

/-- Witness for C8 at the full default command line. -/
theorem c8_default_shadow_opacity_witness :
    (Args.defaults "icon.svg").shadowOpacity
        = (Args.defaults "icon.svg").shadowOpacity ∧
      shadowFill ((styleOfArgs (Args.defaults "icon.svg")).shadowOpacity)
        = ⟨0, 0, 0, 76⟩ :=
  ⟨rfl, (c8_default_shadow_opacity (Args.defaults "icon.svg") rfl).2⟩

theorem generate_icon_out (rast : ℤ → RastResult) (blur : ℤ → Img → Img)
    (path : String) (size : ℤ) (st : Style) (s : FS) (n : String) :
    ((generate_icon rast blur path size st s).2).out n =
      match rast (scaledContentSize size st) with
      | .success c => if n = path then some (composeIcon blur c size st) else s.out n
      | _ => s.out n := by
  cases hr : rast (scaledContentSize size st) <;> simp [generate_icon, hr]

theorem runSizes_out (rast : ℤ → RastResult) (blur : ℤ → Img → Img)
    (dir : String) (st : Style) (l : List (ℤ × String)) :
    ∀ (s : FS) (succ att : ℕ) (n : String),
      ((runSizes rast blur dir st l s succ att).1).out n =
        match writesOf rast blur dir st l n with
        | some i => some i
        | none => s.out n := by
  induction l with
  | nil => intro s succ att n; simp [runSizes, writesOf]
  | cons p l ih =>
      obtain ⟨size, name⟩ := p
      intro s succ att n
      simp only [runSizes]
      rw [ih]
      cases hw : writesOf rast blur dir st l n with
      | some i => simp [writesOf, hw]
      | none =>
          simp only [writesOf, hw]
          rw [generate_icon_out]
          cases hr : rast (scaledContentSize size st) with
          | success c => by_cases hn : n = dir ++ "/" ++ name <;> simp [hn]
          | procErrorWrote c => simp
          | procErrorNoFile => simp
          | toolNotFound => simp

/-- C9: the pipeline is a deterministic, idempotent function of its inputs.
First conjunct: re-running `main` with identical inputs starting from the
file system the first run produced leaves every output file byte-identical
(and the tally and exit code equal).  Second conjunct: for two runs from
arbitrary starting states, every file name either receives the same content
from both runs or is written by neither (so over an empty or overwritable
output directory the produced files are identical). -/
theorem c9_idempotent (a : Args) (env : Env) (blur : ℤ → Img → Img) (s : FS) :
    ((∀ n, ((mainRun a env blur ((mainRun a env blur s).fs)).fs).out n
        = ((mainRun a env blur s).fs).out n) ∧
      (mainRun a env blur ((mainRun a env blur s).fs)).successCount
        = (mainRun a env blur s).successCount ∧
      (mainRun a env blur ((mainRun a env blur s).fs)).exitCode
        = (mainRun a env blur s).exitCode) ∧
    (∀ (s2 : FS) (n : String),
      ((mainRun a env blur s).fs).out n = ((mainRun a env blur s2).fs).out n ∨
        (((mainRun a env blur s).fs).out n = s.out n ∧
          ((mainRun a env blur s2).fs).out n = s2.out n)) := by
  by_cases h : env.svgExists = true
  · constructor
    · simp only [mainRun, if_pos h]
      refine ⟨fun n => ?_, ?_, trivial⟩
      · rw [runSizes_out, runSizes_out]
        cases hw : writesOf env.rast blur a.outputDir (styleOfArgs a) ICON_SIZES n <;>
          simp [hw]
      · rw [(runSizes_tally env.rast blur a.outputDir (styleOfArgs a) ICON_SIZES _ 0 0).1,
          (runSizes_tally env.rast blur a.outputDir (styleOfArgs a) ICON_SIZES _ 0 0).1]
    · intro s2 n
      simp only [mainRun, if_pos h]
      rw [runSizes_out, runSizes_out]
      cases hw : writesOf env.rast blur a.outputDir (styleOfArgs a) ICON_SIZES n <;>
        simp [hw]
  · simp only [mainRun, if_neg h]
    exact ⟨⟨fun n => trivial, trivial, trivial⟩, fun s2 n => Or.inr ⟨trivial, trivial⟩⟩

/-! ## C10: alpha of the output when rounded corners are disabled -/

/-- The default style with rounded corners disabled (and no shadow). -/
def flatStyle : Style := { defaultStyle with addRoundedCorners := false }

/-- A 1×1 content image with a half-transparent pixel (alpha 128). -/
def contentHalf : Img := Img.new 1 1 ⟨0, 0, 0, 128⟩

theorem blend_alpha_zero : blendCh 0 255 0 = 255 := by decide

theorem blend_alpha_full : blendCh 255 255 255 = 255 := by decide

theorem composeIcon_flat (blur : ℤ → Img → Img) (content : Img) (size : ℤ)
    (st : Style) (hrc : st.addRoundedCorners = false) :
    composeIcon blur content size st =
      pasteMask
        (Img.new (roundedIconSize size st) (roundedIconSize size st)
          ⟨st.bgColor.1, st.bgColor.2.1, st.bgColor.2.2, 255⟩)
        content (contentOffset size st) (contentOffset size st) := by
  simp only [composeIcon]
  rw [if_neg (by rw [hrc]; exact Bool.false_ne_true)]

theorem contentOffset_1_flat : contentOffset 1 flatStyle = 0 := by
  have hrs : roundedIconSize 1 flatStyle = 1 := by
    rw [roundedIconSize, if_neg]
    rintro ⟨hb, -⟩
    rw [show flatStyle.addRoundedCorners = false from rfl] at hb
    exact Bool.false_ne_true hb
  have hcs : contentSize 1 flatStyle = 0 := by
    rw [contentSize, hrs, show flatStyle.paddingRatio = 3/20 from rfl,
      pytrunc, if_pos (by norm_num)]
    norm_num
  have hscs : scaledContentSize 1 flatStyle = 0 := by
    rw [scaledContentSize, hcs, show flatStyle.scaleRatio = 1 from rfl,
      pytrunc, if_pos (by norm_num)]
    norm_num
  rw [contentOffset, hrs, hscs]
  decide

/-- C10 counterexample: with rounded corners disabled, pasting content with a
half-transparent pixel (alpha 128) onto the opaque background — using the
content itself as the paste mask — blends the alpha channel too: the saved
pixel gets alpha `MULDIV255(255,127) + MULDIV255(128,128) = 191`, not 255. -/
theorem c10_opaque_counterexample :
    flatStyle.addRoundedCorners = false ∧
      ((composeIcon blur0 contentHalf 1 flatStyle).px 0 0).a = 191 := by
  refine ⟨rfl, ?_⟩
  rw [composeIcon_flat blur0 contentHalf 1 flatStyle rfl, contentOffset_1_flat]
  simp only [pasteMask]
  rw [if_pos (by decide)]
  decide

/-- C10 (amended): when rounded corners are disabled, every pixel of the
saved output is fully opaque (alpha 255) provided the content's alpha
channel is binary (0 or 255): the background canvas is allocated opaque, and
the masked-paste blend maps mask values 0 and 255 back to alpha 255.  For
fractional content alpha `a` the blend gives `blend(a, 255, a) < 255`
(191 at a = 128), so the claim's unconditional form fails. -/
theorem c10_opaque_of_binary_alpha (blur : ℤ → Img → Img) (content : Img)
    (size : ℤ) (st : Style) (hrc : st.addRoundedCorners = false)
    (hbin : ∀ x y : ℤ, (content.px x y).a = 0 ∨ (content.px x y).a = 255)
    (x y : ℤ) :
    ((composeIcon blur content size st).px x y).a = 255 := by
  rw [composeIcon_flat blur content size st hrc]
  simp only [pasteMask]
  by_cases hin : inBox (contentOffset size st) (contentOffset size st)
      content.w content.h x y = true
  · rw [if_pos hin]
    rcases hbin (x - contentOffset size st) (y - contentOffset size st) with h0 | h0 <;>
      simp only [h0] <;> first
        | exact blend_alpha_zero
        | exact blend_alpha_full
  · rw [if_neg hin]
    rfl

/-- Witness for C10's amended statement: fully opaque 1×1 content. -/
theorem c10_opaque_of_binary_alpha_witness :
    flatStyle.addRoundedCorners = false ∧
      ((composeIcon blur0 content0 4 flatStyle).px 0 0).a = 255 :=
  ⟨rfl, c10_opaque_of_binary_alpha blur0 content0 4 flatStyle rfl
    (fun _ _ => Or.inr rfl) 0 0⟩

end GotifyIcons
